import Mathlib

/-!
Shallow embedding of the secrethelper provisioning handler
(`secretGenerator.go`): the request validator (`validateEvent`), the
dispatcher (`Process`) and the three generators (`handleRSAKey`,
`handleKeyPair`, `handlePassword`), together with the parameter-store
helper (`createSSMParameter`).

Modelling conventions:
* Go `error` values are modelled by their message string (`Option String`,
  `none` = nil error).
* The AWS clients stored in the generator struct are modelled as function
  fields returning the error of the one request each generator issues;
  every request actually issued is also recorded in a `CollabCall` list so
  that "zero collaborator calls" is expressible.
* `crypto/rand.Read` is modelled by an infinite byte stream
  `rnd : Nat → Nat`; byte `i` of a draw is `rnd i % 256`.
* The outputs of the crypto libraries (`rsa.GenerateKey`,
  `privateKey.Validate`, `ssh.NewPublicKey`, the base64 payloads inside
  `pem.EncodeToMemory` and `ssh.MarshalAuthorizedKey`) are abstracted into
  a `CryptoOracle`; the fixed framing the Go libraries put around those
  payloads (PEM header/footer, the `ssh-rsa ` prefix and trailing newline
  of an authorized key) is kept concrete.
* A Go runtime panic (negative `make` length, `b % byte(l)` with
  `byte(l) = 0`) is modelled by the `crash` constructor of the outcome
  types.
* Go strings are modelled at the character level; on the ASCII strings
  appearing here this coincides with Go's byte-level view.
-/

/-- A value stored in the untyped property bag
(`map[string]interface{}`): a string, an int, or anything else. -/
inductive PropValue where
  | str : String → PropValue
  | int : Int → PropValue
  | other : PropValue
deriving DecidableEq, Repr

/-- `cfn.Event`: resource type plus property bag.  The bag
`map[string]interface{}` is modelled as an association list. -/
structure Event where
  ResourceType : String := ""
  ResourceProperties : List (String × PropValue) := []

/-- Go type assertion `bag[k].(string)`: succeeds exactly when the key is
present and holds a string (a missing key yields the nil interface, whose
assertion fails). -/
def getString (bag : List (String × PropValue)) (k : String) : Option String :=
  match bag.lookup k with
  | some (.str s) => some s
  | _ => none

/-- Go type assertion `bag[k].(int)`. -/
def getInt (bag : List (String × PropValue)) (k : String) : Option Int :=
  match bag.lookup k with
  | some (.int n) => some n
  | _ => none

/-- `ssmiface.SSMAPI`, reduced to the one request the code issues:
`PutParameterRequest` followed by `Send`, returning the request error. -/
structure SSMAPI where
  putParameterRequest : String → String → String → Bool → Option String

/-- `ec2iface.EC2API`, reduced to `ImportKeyPairRequest` + `Send`. -/
structure EC2API where
  importKeyPairRequest : String → String → Option String

/-- A request actually issued to an external collaborator. -/
inductive CollabCall where
  | putParameter (name value description : String) (overwrite : Bool)
  | importKeyPair (keyName publicKeyMaterial : String)
deriving DecidableEq, Repr

/-- The `secretGenerator` struct. -/
structure SecretGenerator where
  EC2Client : EC2API
  SSMClient : SSMAPI
  Name : String := ""
  publicKey : Option String := none
  alphabet : String := ""
  passwordLength : Int := 0
  validationError : Option String := none

/-- The `responseSecret` struct: only the fields relevant to the invoked
generator are populated (`nil` pointers model absence). -/
structure ResponseSecret where
  KeyLength : Option Int := none
  PrivateKey : Option String := none
  PublicKey : Option String := none
  Password : Option String := none
deriving DecidableEq, Repr

/-- `newSecret`: fresh generator holding only the two client handles. -/
def newSecret (ec2Client : EC2API) (ssmClient : SSMAPI) : SecretGenerator :=
  { EC2Client := ec2Client, SSMClient := ssmClient }

/-- The built-in alphabet literal from `validateEvent`, copied verbatim. -/
def builtinAlphabet : String :=
  "0123456789ABCDEFGHIJKLMNOPQRSTUVWXYZabcdefghijklmnopqrstuvwxyz!@#$%^&*()_+-[]?;,."

/-- `validateEvent`: builds a fresh `trg` struct carrying only the two
clients of the receiver, then fills name, optional public key, alphabet
and length from the property bag, with the defaults and the recorded
validation error of the source. -/
def validateEvent (sg : SecretGenerator) (event : Event) : SecretGenerator :=
  let trg : SecretGenerator :=
    { SSMClient := sg.SSMClient, EC2Client := sg.EC2Client }
  let trg :=
    match getString event.ResourceProperties "Name" with
    | some keyName => { trg with Name := keyName }
    | none =>
        { trg with
            validationError := some "Missing required property 'Name'",
            Name := "Unknown" }
  let trg :=
    match getString event.ResourceProperties "PublicKey" with
    | some pk => { trg with publicKey := some pk }
    | none => trg
  let trg :=
    { trg with
        alphabet := (getString event.ResourceProperties "Alphabet").getD builtinAlphabet }
  { trg with
      passwordLength := (getInt event.ResourceProperties "Length").getD 30 }

/-- `createSSMParameter`: short-circuits on a recorded validation error,
otherwise issues exactly one PutParameter request. -/
def createSSMParameter (sg : SecretGenerator) (key value description : String)
    (override : Bool) : Option String × List CollabCall :=
  match sg.validationError with
  | some e => (some e, [])
  | none =>
      (sg.SSMClient.putParameterRequest key value description override,
       [.putParameter key value description override])

/-- Outcomes of the crypto library calls inside `handleRSAKey`, abstracted:
possible errors of `rsa.GenerateKey`, `privateKey.Validate` and
`ssh.NewPublicKey`, and the base64 payloads of the two encodings. -/
structure CryptoOracle where
  generateKeyError : Option String := none
  validateError : Option String := none
  newPublicKeyError : Option String := none
  publicKeyB64 : String := ""
  privateKeyDerB64 : String := ""

/-- `ssh.MarshalAuthorizedKey` for an RSA key: the key type, a space, the
base64 body, a trailing newline. -/
def marshalAuthorizedKey (b64 : String) : String :=
  "ssh-rsa " ++ b64 ++ "\n"

/-- `pem.EncodeToMemory` of a block: fixed BEGIN/END framing around the
base64 body (the body, base64 in 64-column lines ending in a newline, is
abstracted into the argument). -/
def pemEncodeToMemory (blockType b64Body : String) : String :=
  "-----BEGIN " ++ blockType ++ "-----\n" ++ b64Body
    ++ "-----END " ++ blockType ++ "-----\n"

/-- The PEM-encoded private key produced by `handleRSAKey`. -/
def rsaPrivatePEM (oracle : CryptoOracle) : String :=
  pemEncodeToMemory "RSA PRIVATE KEY" oracle.privateKeyDerB64

/-- The authorized-key string produced by `handleRSAKey`. -/
def rsaPublicKeyStr (oracle : CryptoOracle) : String :=
  marshalAuthorizedKey oracle.publicKeyB64

/-- `handleRSAKey`: short-circuit on a validation error; otherwise run the
crypto pipeline, then store the PEM private key, returning the populated
response together with whatever error the store returned. -/
def handleRSAKey (oracle : CryptoOracle) (sg : SecretGenerator) :
    Option ResponseSecret × Option String × List CollabCall :=
  match sg.validationError with
  | some e => (none, some e, [])
  | none =>
      let keyLength : Int := 2048
      match oracle.generateKeyError with
      | some e => (none, some e, [])
      | none =>
      match oracle.validateError with
      | some e => (none, some e, [])
      | none =>
      match oracle.newPublicKeyError with
      | some e => (none, some e, [])
      | none =>
          let resPrivateKey := rsaPrivatePEM oracle
          let resPublicKey := rsaPublicKeyStr oracle
          let stored := createSSMParameter sg sg.Name resPrivateKey "RSA private key" false
          (some { KeyLength := some keyLength,
                  PrivateKey := some resPrivateKey,
                  PublicKey := some resPublicKey },
           stored.1, stored.2)

/-- `handleKeyPair`: short-circuit on a validation error; with no public
key, record a fresh validation error on the struct (the one generator-side
write) and return it; otherwise issue the import request.  The returned
`SecretGenerator` is the post-state of the (pointer-received) struct. -/
def handleKeyPair (sg : SecretGenerator) :
    Option String × SecretGenerator × List CollabCall :=
  match sg.validationError with
  | some e => (some e, sg, [])
  | none =>
      match sg.publicKey with
      | none =>
          let sg' :=
            { sg with validationError := some "Missing required property 'PublicKey'" }
          (sg'.validationError, sg', [])
      | some pk =>
          (sg.EC2Client.importKeyPairRequest sg.Name pk, sg,
           [.importKeyPair sg.Name pk])

/-- Result of `handlePassword` (and of `Process`): either a Go-style
return, or a runtime crash (Go panic). -/
inductive PasswordOutcome where
  | ok (response : Option ResponseSecret) (err : Option String)
      (calls : List CollabCall)
  | crash (msg : String)
deriving DecidableEq, Repr

/-- The character loop of `handlePassword`:
`buff[i] = alphabet[buff[i] % byte(len(alphabet))]` for each of the `n`
random bytes; `byte(l)` truncates the length to `l % 256`. -/
def passwordChars (alphabet : String) (rnd : Nat → Nat) (n : Nat) : List Char :=
  (List.range n).map
    (fun i => alphabet.data.getD ((rnd i % 256) % (alphabet.length % 256)) 'A')

/-- The password string `handlePassword` builds from the random stream. -/
def passwordString (alphabet : String) (rnd : Nat → Nat) (n : Nat) : String :=
  ⟨passwordChars alphabet rnd n⟩

/-- `handlePassword`: short-circuit on a validation error; crash on a
negative `make` length; crash with a divide-by-zero when `byte(l) = 0` and
the loop runs at least once; otherwise build the password, store it, and
return it together with whatever error the store returned. -/
def handlePassword (rnd : Nat → Nat) (sg : SecretGenerator) : PasswordOutcome :=
  match sg.validationError with
  | some e => .ok none (some e) []
  | none =>
      if sg.passwordLength < 0 then .crash "makeslice: len out of range"
      else
        let n := sg.passwordLength.toNat
        if sg.alphabet.length % 256 = 0 ∧ n ≠ 0 then
          .crash "integer divide by zero"
        else
          let password := passwordString sg.alphabet rnd n
          let stored := createSSMParameter sg sg.Name password "Password" false
          .ok (some { Password := some password }) stored.1 stored.2

/-- Result of `Process`: the physical resource identifier, the `Response`
slot (`none` models the nil response of the Go code), the error, and the
collaborator calls issued — or a runtime crash propagated from the
password path. -/
inductive ProcessOutcome where
  | ok (physicalResourceID : String) (response : Option ResponseSecret)
      (err : Option String) (calls : List CollabCall)
  | crash (msg : String)
deriving DecidableEq, Repr

/-- `Process`: validate the event into a fresh struct, dispatch on the
resource type, attach the physical resource identifier, and wrap a non-nil
response under the `Response` slot (modelled as the `Option ResponseSecret`
of the `ok` outcome). -/
def Process (oracle : CryptoOracle) (rnd : Nat → Nat) (sg : SecretGenerator)
    (event : Event) : ProcessOutcome :=
  let sg := validateEvent sg event
  if event.ResourceType = "Custom::RSAKey" then
    let r := handleRSAKey oracle sg
    .ok ("RSAKey:" ++ sg.Name) r.1 r.2.1 r.2.2
  else if event.ResourceType = "Custom::KeyPair" then
    let r := handleKeyPair sg
    .ok ("KeyPair:" ++ r.2.1.Name) none r.1 r.2.2
  else if event.ResourceType = "Custom::Password" then
    match handlePassword rnd sg with
    | .ok response err calls => .ok ("Password:" ++ sg.Name) response err calls
    | .crash m => .crash m
  else
    .ok ("Unknown:" ++ sg.Name) none (some "Unknown ResourceType") []

/-! ### Test fixtures (mirroring the repository's mock clients) -/

/-- An SSM client whose requests always succeed. -/
def okSSM : SSMAPI := ⟨fun _ _ _ _ => none⟩

/-- An EC2 client whose requests always succeed. -/
def okEC2 : EC2API := ⟨fun _ _ => none⟩

/-- The mock SSM client of the repository's tests: fails exactly on the
parameter name `FAIL_TO_CREATE`. -/
def failSSM : SSMAPI :=
  ⟨fun name _ _ _ =>
    if name = "FAIL_TO_CREATE" then some "error code: error message" else none⟩

/-- A constant random stream (every byte 0). -/
def zeroRnd : Nat → Nat := fun _ => 0

/-! ### Helper lemmas -/

/-- A string of nonzero length is not the empty string. -/
theorem str_ne_empty_of_length_ne_zero (s : String) (h : s.length ≠ 0) : s ≠ "" :=
  fun he => h (by rw [he]; rfl)

/-- The PEM encoding of the private key is never empty (it always carries
the BEGIN framing). -/
theorem rsaPrivatePEM_ne_empty (oracle : CryptoOracle) : rsaPrivatePEM oracle ≠ "" := by
  apply str_ne_empty_of_length_ne_zero
  have h1 : ("-----BEGIN " : String).length = 11 := by decide
  simp only [rsaPrivatePEM, pemEncodeToMemory, String.length_append, h1]
  omega

/-- The authorized-key encoding of the public key is never empty (it
always carries the `ssh-rsa ` prefix). -/
theorem rsaPublicKeyStr_ne_empty (oracle : CryptoOracle) : rsaPublicKeyStr oracle ≠ "" := by
  apply str_ne_empty_of_length_ne_zero
  have h1 : ("ssh-rsa " : String).length = 8 := by decide
  simp only [rsaPublicKeyStr, marshalAuthorizedKey, String.length_append, h1]
  omega

/-! ### Claims -/

/-- C4: for every validated context whose validation fault is set, each of
the three generators returns that same fault unchanged and performs zero
collaborator calls (and, for RSA/password, no crypto or random work: the
result does not depend on the oracle or the random stream). -/
theorem c4_fault_short_circuits (oracle : CryptoOracle) (rnd : Nat → Nat)
    (sg : SecretGenerator) (e : String) (h : sg.validationError = some e) :
    handleRSAKey oracle sg = (none, some e, []) ∧
    handleKeyPair sg = (some e, sg, []) ∧
    handlePassword rnd sg = .ok none (some e) [] := by
  simp [handleRSAKey, handleKeyPair, handlePassword, h]

/-- A fault-bearing context, as in the repository's
`createSSMParameter->With validation error` test. -/
def faultySg : SecretGenerator :=
  { EC2Client := okEC2, SSMClient := okSSM,
    validationError := some "Some Problem" }

/-- C4 witness: the fault-bearing fixture hits the short-circuit in all
three generators. -/
theorem c4_witness :
    faultySg.validationError = some "Some Problem" ∧
    (handleRSAKey {} faultySg = (none, some "Some Problem", []) ∧
     handleKeyPair faultySg = (some "Some Problem", faultySg, []) ∧
     handlePassword zeroRnd faultySg = .ok none (some "Some Problem") []) :=
  ⟨rfl, c4_fault_short_circuits {} zeroRnd faultySg "Some Problem" rfl⟩

/-- C3: a parameter-store write failure does not suppress the generated
artifact: with a fault-free context and error-free crypto, the RSA
generator returns the store's error alongside a response with
keyLength 2048 and non-empty private and public keys, and the password
generator returns the store's error alongside the generated password. -/
theorem c3_store_failure_returns_artifact (oracle : CryptoOracle) (rnd : Nat → Nat)
    (sg : SecretGenerator) (e1 e2 : String)
    (hv : sg.validationError = none)
    (hg : oracle.generateKeyError = none)
    (hval : oracle.validateError = none)
    (hpk : oracle.newPublicKeyError = none)
    (hlen : 0 ≤ sg.passwordLength)
    (halpha : sg.alphabet.length % 256 ≠ 0)
    (hfail1 : sg.SSMClient.putParameterRequest sg.Name (rsaPrivatePEM oracle)
        "RSA private key" false = some e1)
    (hfail2 : sg.SSMClient.putParameterRequest sg.Name
        (passwordString sg.alphabet rnd sg.passwordLength.toNat)
        "Password" false = some e2) :
    handleRSAKey oracle sg =
      (some { KeyLength := some 2048,
              PrivateKey := some (rsaPrivatePEM oracle),
              PublicKey := some (rsaPublicKeyStr oracle) },
       some e1,
       [.putParameter sg.Name (rsaPrivatePEM oracle) "RSA private key" false]) ∧
    rsaPrivatePEM oracle ≠ "" ∧
    rsaPublicKeyStr oracle ≠ "" ∧
    handlePassword rnd sg =
      .ok (some { Password := some (passwordString sg.alphabet rnd sg.passwordLength.toNat) })
        (some e2)
        [.putParameter sg.Name (passwordString sg.alphabet rnd sg.passwordLength.toNat)
          "Password" false] := by
  have hlen' : ¬ sg.passwordLength < 0 := by omega
  have hc : ¬ (sg.alphabet.length % 256 = 0 ∧ sg.passwordLength.toNat ≠ 0) :=
    fun hp => halpha hp.1
  refine ⟨?_, rsaPrivatePEM_ne_empty oracle, rsaPublicKeyStr_ne_empty oracle, ?_⟩
  · simp [handleRSAKey, createSSMParameter, hv, hg, hval, hpk, hfail1]
  · simp [handlePassword, createSSMParameter, hv, hlen', hc, hfail2]
    exact fun h => absurd h halpha

/-- A fault-free context whose name triggers the failing mock store,
as in the repository's `Failed To Create Param` tests. -/
def c3Sg : SecretGenerator :=
  { EC2Client := okEC2, SSMClient := failSSM, Name := "FAIL_TO_CREATE",
    alphabet := builtinAlphabet, passwordLength := 30 }

/-- C3 witness: the failing-store fixture returns the mock error together
with the fully populated RSA response and the generated password. -/
theorem c3_witness :
    c3Sg.validationError = none ∧
    (handleRSAKey {} c3Sg =
      (some { KeyLength := some 2048,
              PrivateKey := some (rsaPrivatePEM {}),
              PublicKey := some (rsaPublicKeyStr {}) },
       some "error code: error message",
       [.putParameter c3Sg.Name (rsaPrivatePEM {}) "RSA private key" false]) ∧
    rsaPrivatePEM {} ≠ "" ∧
    rsaPublicKeyStr {} ≠ "" ∧
    handlePassword zeroRnd c3Sg =
      .ok (some { Password := some (passwordString c3Sg.alphabet zeroRnd c3Sg.passwordLength.toNat) })
        (some "error code: error message")
        [.putParameter c3Sg.Name (passwordString c3Sg.alphabet zeroRnd c3Sg.passwordLength.toNat)
          "Password" false]) :=
  ⟨rfl, c3_store_failure_returns_artifact {} zeroRnd c3Sg
    "error code: error message" "error code: error message"
    rfl rfl rfl rfl (by decide) (by decide) (by decide) (by decide)⟩

/-- The spec's prefix-stripping map on recognized resource kinds (this one
definition follows the spec's words, for comparison with `Process`). -/
def recognizedShortKind (rt : String) : Option String :=
  if rt = "Custom::RSAKey" then some "RSAKey"
  else if rt = "Custom::KeyPair" then some "KeyPair"
  else if rt = "Custom::Password" then some "Password"
  else none

/-- The physical resource identifier of a returning outcome, with a
default for a crash. -/
def ProcessOutcome.idOr (o : ProcessOutcome) (d : String) : String :=
  match o with
  | .ok id _ _ _ => id
  | .crash _ => d

/-- `handleKeyPair` never changes the `Name` field of the struct. -/
theorem handleKeyPair_preserves_Name (sg : SecretGenerator) :
    ((handleKeyPair sg).2.1).Name = sg.Name := by
  unfold handleKeyPair
  cases hv : sg.validationError with
  | some e => rfl
  | none => cases hp : sg.publicKey <;> rfl

/-- The `Custom::KeyPair` event with `Name` `K` and no `PublicKey`. -/
def evKeyPairK : Event :=
  { ResourceType := "Custom::KeyPair",
    ResourceProperties := [("Name", PropValue.str "K")] }

/-- C1 counterexample: processing `Custom::KeyPair` with Name `K` and no
PublicKey yields identifier `KeyPair:K` but the error message starts with
a capital `Missing`, not the claimed lowercase `missing`. -/
theorem c1_counterexample :
    Process {} zeroRnd (newSecret okEC2 okSSM) evKeyPairK =
      .ok "KeyPair:K" none (some "Missing required property 'PublicKey'") [] ∧
    some "Missing required property 'PublicKey'" ≠
      (some "missing required property 'PublicKey'" : Option String) := by
  exact ⟨by decide, by decide⟩

/-- C1 amended: for every recognized resource kind, whenever `Process`
returns, the identifier is the short kind name (Custom:: stripped)
followed by `:` and the validated name; processing `Custom::KeyPair` with
Name `K` and no PublicKey yields the error
`Missing required property 'PublicKey'` and identifier `KeyPair:K`. -/
theorem c1_amended (oracle : CryptoOracle) (rnd : Nat → Nat)
    (sg : SecretGenerator) (event : Event) (k : String)
    (hk : recognizedShortKind event.ResourceType = some k) :
    (Process oracle rnd sg event).idOr (k ++ ":" ++ (validateEvent sg event).Name)
      = k ++ ":" ++ (validateEvent sg event).Name ∧
    Process {} zeroRnd (newSecret okEC2 okSSM) evKeyPairK =
      .ok "KeyPair:K" none (some "Missing required property 'PublicKey'") [] := by
  refine ⟨?_, by decide⟩
  by_cases h1 : event.ResourceType = "Custom::RSAKey"
  · rw [h1] at hk
    simp only [recognizedShortKind, if_pos] at hk
    obtain rfl : "RSAKey" = k := Option.some.inj hk
    simp [Process, ProcessOutcome.idOr, h1]
  · by_cases h2 : event.ResourceType = "Custom::KeyPair"
    · rw [h2] at hk
      have hk' : some "KeyPair" = some k := by
        rw [← hk]; rfl
      obtain rfl : "KeyPair" = k := Option.some.inj hk' 
      simp [Process, ProcessOutcome.idOr, h1, h2, handleKeyPair_preserves_Name]
    · by_cases h3 : event.ResourceType = "Custom::Password"
      · rw [h3] at hk
        have hk' : some "Password" = some k := by
          rw [← hk]; rfl
        obtain rfl : "Password" = k := Option.some.inj hk' 
        simp only [Process, h1, h2, h3, if_neg, if_pos, ite_false, ite_true]
        cases hpw : handlePassword rnd (validateEvent sg event) <;>
          simp [ProcessOutcome.idOr]
      · simp [recognizedShortKind, h1, h2, h3] at hk

/-- C1 witness: the amended statement instantiated at the KeyPair event. -/
theorem c1_witness :
    recognizedShortKind evKeyPairK.ResourceType = some "KeyPair" ∧
    ((Process {} zeroRnd (newSecret okEC2 okSSM) evKeyPairK).idOr
        ("KeyPair" ++ ":" ++ (validateEvent (newSecret okEC2 okSSM) evKeyPairK).Name)
      = "KeyPair" ++ ":" ++ (validateEvent (newSecret okEC2 okSSM) evKeyPairK).Name ∧
    Process {} zeroRnd (newSecret okEC2 okSSM) evKeyPairK =
      .ok "KeyPair:K" none (some "Missing required property 'PublicKey'") []) :=
  ⟨by decide, c1_amended {} zeroRnd (newSecret okEC2 okSSM) evKeyPairK "KeyPair" (by decide)⟩

/-- The `Custom::Bogus` event with `Name` `X`. -/
def evBogusX : Event :=
  { ResourceType := "Custom::Bogus",
    ResourceProperties := [("Name", PropValue.str "X")] }

/-- C2 counterexample: an unrecognized kind with a parsed Name `X` yields
the identifier `Unknown:X`, not the claimed `Unknown:Unknown`. -/
theorem c2_counterexample :
    Process {} zeroRnd (newSecret okEC2 okSSM) evBogusX =
      .ok "Unknown:X" none (some "Unknown ResourceType") [] ∧
    "Unknown:X" ≠ "Unknown:Unknown" := by
  exact ⟨by decide, by decide⟩

/-- C2 amended: for every unrecognized resource kind, `Process` returns
the error `Unknown ResourceType` and the identifier `Unknown:` followed by
the name parsed from the property bag (which is the sentinel `Unknown`
exactly when the Name property was absent or mistyped). -/
theorem c2_amended (oracle : CryptoOracle) (rnd : Nat → Nat)
    (sg : SecretGenerator) (event : Event)
    (h : recognizedShortKind event.ResourceType = none) :
    Process oracle rnd sg event =
      .ok ("Unknown:" ++ (validateEvent sg event).Name) none
        (some "Unknown ResourceType") [] := by
  by_cases h1 : event.ResourceType = "Custom::RSAKey"
  · simp [recognizedShortKind, h1] at h
  by_cases h2 : event.ResourceType = "Custom::KeyPair"
  · simp [recognizedShortKind, h1, h2] at h
  by_cases h3 : event.ResourceType = "Custom::Password"
  · simp [recognizedShortKind, h1, h2, h3] at h
  simp [Process, h1, h2, h3]

/-- C2 witness: the amended statement instantiated at the Bogus event. -/
theorem c2_witness :
    recognizedShortKind evBogusX.ResourceType = none ∧
    Process {} zeroRnd (newSecret okEC2 okSSM) evBogusX =
      .ok ("Unknown:" ++ (validateEvent (newSecret okEC2 okSSM) evBogusX).Name) none
        (some "Unknown ResourceType") [] :=
  ⟨by decide, c2_amended {} zeroRnd (newSecret okEC2 okSSM) evBogusX (by decide)⟩

/-- An event whose property bag lacks a usable `Name`. -/
def evNoName : Event := { ResourceType := "Custom::Password" }

/-- C5 counterexample: with Name absent, the validator records the message
`Missing required property 'Name'` (capital `M`), not the claimed
lowercase `missing required property 'Name'`. -/
theorem c5_counterexample :
    (validateEvent (newSecret okEC2 okSSM) evNoName).validationError =
      some "Missing required property 'Name'" ∧
    (validateEvent (newSecret okEC2 okSSM) evNoName).validationError ≠
      some "missing required property 'Name'" := by
  exact ⟨by decide, by decide⟩

/-- C5 amended: for every property bag in which Name is absent or not a
string, the validator records the fault `Missing required property 'Name'`
and substitutes the literal name `Unknown` (and, being a total function,
it never itself returns an error). -/
theorem c5_amended (sg : SecretGenerator) (event : Event)
    (h : getString event.ResourceProperties "Name" = none) :
    (validateEvent sg event).validationError =
      some "Missing required property 'Name'" ∧
    (validateEvent sg event).Name = "Unknown" := by
  unfold validateEvent
  rw [h]
  cases hp : getString event.ResourceProperties "PublicKey" <;> simp

/-- C5 witness: the amended statement instantiated at the Name-less
event. -/
theorem c5_witness :
    getString evNoName.ResourceProperties "Name" = none ∧
    ((validateEvent (newSecret okEC2 okSSM) evNoName).validationError =
      some "Missing required property 'Name'" ∧
    (validateEvent (newSecret okEC2 okSSM) evNoName).Name = "Unknown") :=
  ⟨rfl, c5_amended (newSecret okEC2 okSSM) evNoName rfl⟩

/-- C7 counterexample: the built-in default alphabet has 81 characters,
not the claimed exactly 80. -/
theorem c7_counterexample :
    (validateEvent (newSecret okEC2 okSSM) evNoName).alphabet = builtinAlphabet ∧
    builtinAlphabet.length = 81 ∧ builtinAlphabet.length ≠ 80 := by
  exact ⟨by decide, by decide, by decide⟩

/-- C7 amended: when Alphabet is absent or not a string the validator
defaults the alphabet to the fixed built-in set of exactly 81 characters
(10 digits, 26 uppercase, 26 lowercase, 19 punctuation); when Length is
absent or not an integer it defaults the password length to 30. -/
theorem c7_amended (sg : SecretGenerator) (event : Event)
    (ha : getString event.ResourceProperties "Alphabet" = none)
    (hl : getInt event.ResourceProperties "Length" = none) :
    (validateEvent sg event).alphabet = builtinAlphabet ∧
    builtinAlphabet.length = 81 ∧
    (validateEvent sg event).passwordLength = 30 := by
  refine ⟨?_, by decide, ?_⟩ <;>
  · unfold validateEvent
    rw [ha, hl]
    cases hn : getString event.ResourceProperties "Name" <;>
      cases hp : getString event.ResourceProperties "PublicKey" <;> simp

/-- C7 witness: the amended statement instantiated at the empty-bag
event. -/
theorem c7_witness :
    getString evNoName.ResourceProperties "Alphabet" = none ∧
    getInt evNoName.ResourceProperties "Length" = none ∧
    ((validateEvent (newSecret okEC2 okSSM) evNoName).alphabet = builtinAlphabet ∧
    builtinAlphabet.length = 81 ∧
    (validateEvent (newSecret okEC2 okSSM) evNoName).passwordLength = 30) :=
  ⟨rfl, rfl, c7_amended (newSecret okEC2 okSSM) evNoName rfl rfl⟩

/-- A fault-free context with a name but no public key, as in the
repository's `handleKeyPair->Missing PublicKey` test. -/
def noPkSg : SecretGenerator :=
  { EC2Client := okEC2, SSMClient := okSSM, Name := "SomeKey" }

/-- C8 counterexample: `handleKeyPair` writes the fault field: on a
fault-free context without a public key, the field changes from `none` to
the recorded `PublicKey` fault. -/
theorem c8_counterexample :
    noPkSg.validationError = none ∧
    ((handleKeyPair noPkSg).2.1).validationError =
      some "Missing required property 'PublicKey'" ∧
    ((handleKeyPair noPkSg).2.1).validationError ≠ noPkSg.validationError := by
  exact ⟨rfl, rfl, by decide⟩

/-- C8 amended: the fault field after a generator invocation equals its
value before, except that the keypair-import generator sets it to
`Missing required property 'PublicKey'` exactly when no fault was set and
the public key is absent (the RSA and password generators take the struct
read-only). -/
theorem c8_amended (sg : SecretGenerator) :
    ((handleKeyPair sg).2.1).validationError =
      (if sg.validationError = none ∧ sg.publicKey = none
       then some "Missing required property 'PublicKey'"
       else sg.validationError) := by
  unfold handleKeyPair
  cases hv : sg.validationError with
  | some e => simp [hv]
  | none => cases hp : sg.publicKey <;> simp [hv, hp]

/-- A generator carrying stale per-request state (a recorded fault and an
old name) but the same client handles as a fresh one. -/
def staleSg : SecretGenerator :=
  { EC2Client := okEC2, SSMClient := okSSM, Name := "OLD",
    publicKey := some "OLDKEY", alphabet := "x", passwordLength := 7,
    validationError := some "stale fault" }

/-- C9: an invocation's result depends only on its own event and the two
client handles: any two generator structs with the same clients process
every event identically, so per-request state (in particular a validation
fault) recorded for one invocation never affects another. -/
theorem c9_process_depends_only_on_event (oracle : CryptoOracle) (rnd : Nat → Nat)
    (sg sg' : SecretGenerator) (event : Event)
    (hssm : sg.SSMClient = sg'.SSMClient)
    (hec2 : sg.EC2Client = sg'.EC2Client) :
    Process oracle rnd sg event = Process oracle rnd sg' event := by
  have h : validateEvent sg event = validateEvent sg' event := by
    unfold validateEvent
    rw [hssm, hec2]
  unfold Process
  rw [h]

/-- C9 witness: a generator polluted with a stale fault and stale request
fields processes the KeyPair event exactly like a fresh generator. -/
theorem c9_witness :
    staleSg.SSMClient = (newSecret okEC2 okSSM).SSMClient ∧
    staleSg.EC2Client = (newSecret okEC2 okSSM).EC2Client ∧
    Process {} zeroRnd staleSg evKeyPairK =
      Process {} zeroRnd (newSecret okEC2 okSSM) evKeyPairK :=
  ⟨rfl, rfl,
   c9_process_depends_only_on_event {} zeroRnd staleSg (newSecret okEC2 okSSM)
     evKeyPairK rfl rfl⟩

/-- A 257-character alphabet: `A`, `B`, then 255 copies of `C`. -/
def bigAlphabet : String := "AB" ++ String.mk (List.replicate 255 'C')

/-- A random stream whose every byte is 1. -/
def oneRnd : Nat → Nat := fun _ => 1

/-- A fault-free context with the 257-character alphabet and length 1. -/
def c6Sg : SecretGenerator :=
  { EC2Client := okEC2, SSMClient := okSSM, Name := "N",
    alphabet := bigAlphabet, passwordLength := 1 }

/-- C6 counterexample: with a 257-character alphabet and byte 1, the code
truncates the length to a byte (`byte(257) = 1`) and picks
`alphabet[1 % 1] = 'A'`, while the claimed reduction
`alphabet[byte % length(alphabet)]` would pick `alphabet[1] = 'B'`. -/
theorem c6_counterexample :
    c6Sg.validationError = none ∧
    handlePassword oneRnd c6Sg =
      .ok (some { Password := some "A" }) none
        [.putParameter "N" "A" "Password" false] ∧
    c6Sg.alphabet.data.getD ((oneRnd 0 % 256) % c6Sg.alphabet.length) 'Z' = 'B' ∧
    ("A" : String) ≠ "B" := by
  refine ⟨rfl, ?_, ?_, by decide⟩ <;>
  · set_option maxRecDepth 4000 in decide

/-- C6 amended: for every fault-free context with a non-negative length L
and an alphabet A whose length is not a multiple of 256, the password
generator returns a password of exactly L characters drawn from A, each
character chosen as `A[byte % (length(A) % 256)]` (the Go code reduces
the byte modulo the length truncated to a byte). -/
theorem c6_amended (sg : SecretGenerator) (rnd : Nat → Nat)
    (hv : sg.validationError = none)
    (hlen : 0 ≤ sg.passwordLength)
    (halpha : sg.alphabet.length % 256 ≠ 0) :
    handlePassword rnd sg =
      .ok (some { Password := some (passwordString sg.alphabet rnd sg.passwordLength.toNat) })
        (createSSMParameter sg sg.Name
          (passwordString sg.alphabet rnd sg.passwordLength.toNat) "Password" false).1
        (createSSMParameter sg sg.Name
          (passwordString sg.alphabet rnd sg.passwordLength.toNat) "Password" false).2 ∧
    (passwordString sg.alphabet rnd sg.passwordLength.toNat).length
      = sg.passwordLength.toNat ∧
    (passwordString sg.alphabet rnd sg.passwordLength.toNat).data ⊆ sg.alphabet.data := by
  have hlen' : ¬ sg.passwordLength < 0 := by omega
  have hc : ¬ (sg.alphabet.length % 256 = 0 ∧ sg.passwordLength.toNat ≠ 0) :=
    fun hp => halpha hp.1
  refine ⟨?_, ?_, ?_⟩
  · simp [handlePassword, hv, hlen', hc]
    exact fun h => absurd h halpha
  · simp only [passwordString, passwordChars, String.length_mk, List.length_map,
      List.length_range]
  · intro c hcmem
    simp only [passwordString, passwordChars] at hcmem
    obtain ⟨i, -, rfl⟩ := List.mem_map.mp hcmem
    have hpos : 0 < sg.alphabet.length % 256 := Nat.pos_of_ne_zero halpha
    have hidx : (rnd i % 256) % (sg.alphabet.length % 256) < sg.alphabet.data.length := by
      have h1 : (rnd i % 256) % (sg.alphabet.length % 256) < sg.alphabet.length % 256 :=
        Nat.mod_lt _ hpos
      have h2 : sg.alphabet.length % 256 ≤ sg.alphabet.length := Nat.mod_le _ _
      have h3 : sg.alphabet.data.length = sg.alphabet.length := rfl
      omega
    rw [List.getD_eq_getElem _ _ hidx]
    exact List.getElem_mem hidx

/-- C6 witness: the amended statement instantiated at the failing-store
fixture (the built-in 81-character alphabet, length 30). -/
theorem c6_witness :
    c3Sg.validationError = none ∧ 0 ≤ c3Sg.passwordLength ∧
    c3Sg.alphabet.length % 256 ≠ 0 ∧
    (handlePassword zeroRnd c3Sg =
      .ok (some { Password := some (passwordString c3Sg.alphabet zeroRnd c3Sg.passwordLength.toNat) })
        (createSSMParameter c3Sg c3Sg.Name
          (passwordString c3Sg.alphabet zeroRnd c3Sg.passwordLength.toNat) "Password" false).1
        (createSSMParameter c3Sg c3Sg.Name
          (passwordString c3Sg.alphabet zeroRnd c3Sg.passwordLength.toNat) "Password" false).2 ∧
    (passwordString c3Sg.alphabet zeroRnd c3Sg.passwordLength.toNat).length
      = c3Sg.passwordLength.toNat ∧
    (passwordString c3Sg.alphabet zeroRnd c3Sg.passwordLength.toNat).data ⊆ c3Sg.alphabet.data) :=
  ⟨rfl, by decide, by decide,
   c6_amended c3Sg zeroRnd rfl (by decide) (by decide)⟩

/-- A fault-free context with the empty alphabet and length 0. -/
def c10Sg : SecretGenerator :=
  { EC2Client := okEC2, SSMClient := okSSM, Name := "N",
    alphabet := "", passwordLength := 0 }

/-- C10 counterexample: with the empty alphabet (length ≡ 0 mod 256) but
password length 0, the character loop never runs: the generator returns
the empty password instead of crashing. -/
theorem c10_counterexample :
    c10Sg.validationError = none ∧
    c10Sg.alphabet.length % 256 = 0 ∧
    handlePassword zeroRnd c10Sg =
      .ok (some { Password := some "" }) none
        [.putParameter "N" "" "Password" false] := by
  exact ⟨rfl, by decide, by decide⟩

/-- C10 amended: for every fault-free context whose alphabet length is a
multiple of 256 (including the empty alphabet) and whose password length
is positive, the modulo reduction `alphabet[b % byte(len)]` divides by
zero and the generator crashes instead of returning. -/
theorem c10_amended (sg : SecretGenerator) (rnd : Nat → Nat)
    (hv : sg.validationError = none)
    (halpha : sg.alphabet.length % 256 = 0)
    (hpos : 0 < sg.passwordLength) :
    handlePassword rnd sg = .crash "integer divide by zero" := by
  have hlen' : ¬ sg.passwordLength < 0 := by omega
  have hn : sg.passwordLength.toNat ≠ 0 := by omega
  simp [handlePassword, hv, hlen', halpha, hn]

/-- A fault-free context with the empty alphabet and length 1. -/
def c10CrashSg : SecretGenerator :=
  { EC2Client := okEC2, SSMClient := okSSM, Name := "N",
    alphabet := "", passwordLength := 1 }

/-- C10 witness: the empty-alphabet, length-1 fixture crashes. -/
theorem c10_witness :
    c10CrashSg.validationError = none ∧
    c10CrashSg.alphabet.length % 256 = 0 ∧
    0 < c10CrashSg.passwordLength ∧
    handlePassword zeroRnd c10CrashSg = .crash "integer divide by zero" :=
  ⟨rfl, by decide, by decide,
   c10_amended c10CrashSg zeroRnd rfl (by decide) (by decide)⟩
